import Mathlib

/-!
Shallow embedding of `src/analyzers/prediction_models.py`
(class `FootballPredictionModels`) and proofs about its four prediction
models: the Poisson scoreline model, the head-to-head-adjusted Poisson
model, the fixed-weight "logistic" model and the ensemble combiner.

Python floats are idealised as real numbers; Python dictionaries whose
absence or emptiness the code tests with truthiness are embedded as
`Option`; a model that returns `{"error": msg}` is embedded as
`Except.error msg`.  Field and function names follow the source.
-/

open scoped Classical

noncomputable section

/-- One historical head-to-head meeting, as consumed by
`adjusted_poisson_model` (keys `home_team`, `away_team`, `home_score`,
`away_score`). -/
structure H2HMatch where
  home_team : String
  away_team : String
  home_score : ℝ
  away_score : ℝ

/-- The `head_to_head` sub-dictionary: the code only reads
`last_5_matches.matches` (a missing key yields `[]`). -/
structure H2HData where
  last_5_matches : List H2HMatch

/-- The `stats` sub-dictionary of a team's form entry.  The code reads each
inner key with `.get(..., 0)`, so a missing inner key is embedded as the
field holding `0`. -/
structure TeamStats where
  win_percentage_home : ℝ
  win_percentage_away : ℝ
  goals_scored_per_game_home : ℝ
  goals_scored_per_game_away : ℝ
  goals_conceded_per_game_home : ℝ
  goals_conceded_per_game_away : ℝ

/-- A `team_form` entry; `stats = none` embeds a missing or empty
`stats` dictionary (the code tests `if not home_stats`). -/
structure TeamFormData where
  stats : Option TeamStats

/-- A `table_positions` entry (keys `general_position`, `total_teams`). -/
structure TablePosData where
  general_position : ℝ
  total_teams : ℝ

/-- The `predictions.general` sub-dictionary. -/
structure GeneralPreds where
  goals_per_game_league_avg : ℝ

/-- The processed-data dictionary handed to `FootballPredictionModels`;
dictionary lookup by team name is a function into `Option`. -/
structure ProcessedData where
  home_team : String
  away_team : String
  head_to_head : Option H2HData
  team_form : String → Option TeamFormData
  table_positions : String → Option TablePosData
  predictions : Option GeneralPreds

/-- Embedding of `scipy.stats.poisson.pmf(i, lam)`, the Poisson probability mass
`exp(-lam) * lam^i / i!`. -/
def poissonPmf (lam : ℝ) (i : ℕ) : ℝ :=
  Real.exp (-lam) * lam ^ i / (Nat.factorial i : ℝ)

/-- League-average goal denominators: the fixed fall-back pair
`(1.5, 1.2)` unless `predictions.general.goals_per_game_league_avg`
is present and positive, in which case the 55%/45% split is used. -/
def leagueAvgs (preds : Option GeneralPreds) : ℝ × ℝ :=
  match preds with
  | some g =>
      if 0 < g.goals_per_game_league_avg then
        (g.goals_per_game_league_avg * 0.55, g.goals_per_game_league_avg * 0.45)
      else (1.5, 1.2)
  | none => (1.5, 1.2)

/-- Cell `(i, j)` of the 10×10 score matrix:
`score_matrix[i, j] = home_probs[i] * away_probs[j]`. -/
def scoreMatrix (lh la : ℝ) (i j : ℕ) : ℝ := poissonPmf lh i * poissonPmf la j

/-- Embedding of `np.sum(np.tril(score_matrix, -1))`: total mass strictly below the
diagonal (home win). -/
def homeWinSum (lh la : ℝ) : ℝ :=
  ∑ i ∈ Finset.range 10, ∑ j ∈ Finset.range 10,
    if j < i then scoreMatrix lh la i j else 0

/-- Embedding of `np.sum(np.diag(score_matrix))`: diagonal mass (draw). -/
def drawSum (lh la : ℝ) : ℝ := ∑ i ∈ Finset.range 10, scoreMatrix lh la i i

/-- Embedding of `np.sum(np.triu(score_matrix, 1))`: mass strictly above the diagonal
(away win). -/
def awayWinSum (lh la : ℝ) : ℝ :=
  ∑ i ∈ Finset.range 10, ∑ j ∈ Finset.range 10,
    if i < j then scoreMatrix lh la i j else 0

/-- The code's `over_0_5_prob = 1.0 - score_matrix[0, 0]` (before the ×100 scaling). -/
def over05v (lh la : ℝ) : ℝ := 1 - scoreMatrix lh la 0 0

/-- The code's `over_1_5_prob = 1.0 - (score_matrix[0,0] + score_matrix[1,0] +
score_matrix[0,1])`. -/
def over15v (lh la : ℝ) : ℝ :=
  1 - (scoreMatrix lh la 0 0 + scoreMatrix lh la 1 0 + scoreMatrix lh la 0 1)

/-- The code's `over_2_5_prob = 1.0 - np.sum(score_matrix[:2, :]) -
np.sum(score_matrix[2:, :2]) + score_matrix[1, 1]`. -/
def over25v (lh la : ℝ) : ℝ :=
  1 - (∑ i ∈ Finset.range 2, ∑ j ∈ Finset.range 10, scoreMatrix lh la i j)
    - (∑ i ∈ Finset.Ico 2 10, ∑ j ∈ Finset.range 2, scoreMatrix lh la i j)
    + scoreMatrix lh la 1 1

/-- The code's `over_3_5_prob = 1.0 - np.sum(score_matrix[:3, :]) -
np.sum(score_matrix[3:, :3]) + np.sum(score_matrix[1:3, 1:3])`. -/
def over35v (lh la : ℝ) : ℝ :=
  1 - (∑ i ∈ Finset.range 3, ∑ j ∈ Finset.range 10, scoreMatrix lh la i j)
    - (∑ i ∈ Finset.Ico 3 10, ∑ j ∈ Finset.range 3, scoreMatrix lh la i j)
    + (∑ i ∈ Finset.Ico 1 3, ∑ j ∈ Finset.Ico 1 3, scoreMatrix lh la i j)

/-- The code's `btts_prob = 1.0 - home_probs[0] - away_probs[0] +
home_probs[0] * away_probs[0]`. -/
def bttsv (lh la : ℝ) : ℝ :=
  1 - poissonPmf lh 0 - poissonPmf la 0 + poissonPmf lh 0 * poissonPmf la 0

/-- The `top_scores` list before sorting: the nested
`for i: for j: append ((i, j), score_matrix[i, j])` loops, in row-major
order. -/
def cells (lh la : ℝ) : List ((ℕ × ℕ) × ℝ) :=
  (List.range 10).flatMap fun i =>
    (List.range 10).map fun j => ((i, j), scoreMatrix lh la i j)

/-- The comparison used by `top_scores.sort(key=lambda x: x[1],
reverse=True)`: `a` may precede `b` when `a`'s probability is at least
`b`'s. -/
def probGE (a b : (ℕ × ℕ) × ℝ) : Prop := b.2 ≤ a.2

/-- The sorted `top_scores` list.  Python's `list.sort` is a stable sort;
`List.insertionSort` with `probGE` is stable in the same sense (elements
with equal keys keep their original relative order). -/
def topScores (lh la : ℝ) : List ((ℕ × ℕ) × ℝ) :=
  (cells lh la).insertionSort probGE

/-- The f-string `f"{i}-{j}"`. -/
def scoreName (i j : ℕ) : String := toString i ++ "-" ++ toString j

/-- One entry of the serialised `top_5_scores` list:
`{"score": f"{i}-{j}", "probability": p * 100}`. -/
def fmtScore (sc : (ℕ × ℕ) × ℝ) : String × ℝ := (scoreName sc.1.1 sc.1.2, sc.2 * 100)

/-- Embedding of `score_matrix.tolist()`. -/
def matrixRows (lh la : ℝ) : List (List ℝ) :=
  (List.range 10).map fun i => (List.range 10).map fun j => scoreMatrix lh la i j

/-- Result dictionary of `poisson_model` / `adjusted_poisson_model`.
`h2h_adjustment = none` embeds the absence of that key (the plain Poisson
result has no such key). -/
structure ModelResult where
  home_expected_goals : ℝ
  away_expected_goals : ℝ
  home_win_prob : ℝ
  draw_prob : ℝ
  away_win_prob : ℝ
  over_0_5_prob : ℝ
  over_1_5_prob : ℝ
  over_2_5_prob : ℝ
  over_3_5_prob : ℝ
  btts_prob : ℝ
  top_5_scores : List (String × ℝ)
  score_matrix : List (List ℝ)
  h2h_adjustment : Option (ℝ × ℝ × ℝ)

/-- The common tail of `poisson_model` and `adjusted_poisson_model`:
given the two expected-goals means, build the score matrix and every
derived probability exactly as the source does (the source repeats this
block verbatim in both models). -/
def mkPoissonResult (lh la : ℝ) (adj : Option (ℝ × ℝ × ℝ)) : ModelResult where
  home_expected_goals := lh
  away_expected_goals := la
  home_win_prob := homeWinSum lh la * 100
  draw_prob := drawSum lh la * 100
  away_win_prob := awayWinSum lh la * 100
  over_0_5_prob := over05v lh la * 100
  over_1_5_prob := over15v lh la * 100
  over_2_5_prob := over25v lh la * 100
  over_3_5_prob := over35v lh la * 100
  btts_prob := bttsv lh la * 100
  top_5_scores := ((topScores lh la).take 5).map fmtScore
  score_matrix := matrixRows lh la
  h2h_adjustment := adj

/-- Success path of `poisson_model`: expected goals from attack/defence
rates and the league denominators, the home one scaled by the fixed 1.2
home-advantage factor. -/
def poissonCompute (hs aS : TeamStats) (preds : Option GeneralPreds) : ModelResult :=
  let home_attack := hs.goals_scored_per_game_home
  let home_defense := hs.goals_conceded_per_game_home
  let away_attack := aS.goals_scored_per_game_away
  let away_defense := aS.goals_conceded_per_game_away
  let lg := leagueAvgs preds
  mkPoissonResult (home_attack * away_defense / lg.2 * 1.2)
    (away_attack * home_defense / lg.1) none

/-- Embedding of `FootballPredictionModels.poisson_model`. -/
def poisson_model (d : ProcessedData) : Except String ModelResult :=
  match d.team_form d.home_team, d.team_form d.away_team with
  | some hf, some af =>
      match hf.stats, af.stats with
      | some hs, some aS => .ok (poissonCompute hs aS d.predictions)
      | _, _ => .error "Estatísticas de gols insuficientes para o modelo de Poisson"
  | _, _ => .error "Dados insuficientes para o modelo de Poisson"

/-- The `home_goals` list of `adjusted_poisson_model`: goals of the
fixture's home team in each historical meeting, reassigned by comparing
the historical home-team name with the fixture's home-team name. -/
def h2hHomeGoals (d : ProcessedData) (ms : List H2HMatch) : List ℝ :=
  ms.map fun m => if m.home_team = d.home_team then m.home_score else m.away_score

/-- The `away_goals` list of `adjusted_poisson_model`. -/
def h2hAwayGoals (d : ProcessedData) (ms : List H2HMatch) : List ℝ :=
  ms.map fun m => if m.home_team = d.home_team then m.away_score else m.home_score

/-- Embedding of `np.mean(l) if l else 0`. -/
def meanListR (l : List ℝ) : ℝ :=
  match l with
  | [] => 0
  | _ => l.sum / (l.length : ℝ)

/-- Success path of `adjusted_poisson_model` when head-to-head matches
exist: blend the baseline expected goals with the head-to-head averages
using the fixed 50/50 weights, then rebuild the whole result. -/
def adjustedCompute (d : ProcessedData) (pr : ModelResult) (ms : List H2HMatch) :
    ModelResult :=
  let h2h_home_avg := meanListR (h2hHomeGoals d ms)
  let h2h_away_avg := meanListR (h2hAwayGoals d ms)
  let h2h_weight : ℝ := 0.5
  let form_weight : ℝ := 1.0 - h2h_weight
  mkPoissonResult
    (form_weight * pr.home_expected_goals + h2h_weight * h2h_home_avg)
    (form_weight * pr.away_expected_goals + h2h_weight * h2h_away_avg)
    (some (h2h_home_avg, h2h_away_avg, h2h_weight))

/-- Embedding of `FootballPredictionModels.adjusted_poisson_model`. -/
def adjusted_poisson_model (d : ProcessedData) : Except String ModelResult :=
  match poisson_model d with
  | .error _ => .error "Não foi possível executar o modelo de Poisson ajustado"
  | .ok pr =>
      match d.head_to_head with
      | none => .ok pr
      | some h =>
          match h.last_5_matches with
          | [] => .ok pr
          | m :: rest => .ok (adjustedCompute d pr (m :: rest))

/-- The `features` dictionary reported by the logistic model. -/
structure LRFeatures where
  home_win_pct : ℝ
  away_win_pct : ℝ
  home_goals_scored : ℝ
  home_goals_conceded : ℝ
  away_goals_scored : ℝ
  away_goals_conceded : ℝ
  home_position_norm : ℝ
  away_position_norm : ℝ

/-- Result dictionary of `logistic_regression_model` (it has no
`top_5_scores` and no `score_matrix`). -/
structure LogisticResult where
  home_expected_goals : ℝ
  away_expected_goals : ℝ
  home_win_prob : ℝ
  draw_prob : ℝ
  away_win_prob : ℝ
  over_0_5_prob : ℝ
  over_1_5_prob : ℝ
  over_2_5_prob : ℝ
  over_3_5_prob : ℝ
  btts_prob : ℝ
  features : LRFeatures

/-- Success path of `logistic_regression_model`: three fixed-weight dot
products, a softmax, a 70/30 expected-goals blend and Poisson-CDF
closed-form over/under probabilities on the summed expected goals. -/
def logisticCompute (hs aS : TeamStats) (hpd apd : Option TablePosData) :
    LogisticResult :=
  let home_win_pct := hs.win_percentage_home / 100
  let away_win_pct := aS.win_percentage_away / 100
  let home_goals_scored := hs.goals_scored_per_game_home
  let home_goals_conceded := hs.goals_conceded_per_game_home
  let away_goals_scored := aS.goals_scored_per_game_away
  let away_goals_conceded := aS.goals_conceded_per_game_away
  let home_position := match hpd with | some p => p.general_position | none => 0
  let total_teams := match hpd with | some p => p.total_teams | none => 20
  let away_position := match apd with | some p => p.general_position | none => 0
  let home_position_norm :=
    if 0 < total_teams then 1 - home_position / total_teams else 0.5
  let away_position_norm :=
    if 0 < total_teams then 1 - away_position / total_teams else 0.5
  let home_win_logit :=
    0.3 * home_win_pct + (-0.2) * away_win_pct + 0.15 * home_goals_scored +
      (-0.15) * home_goals_conceded + (-0.1) * away_goals_scored +
      0.1 * away_goals_conceded + 0.2 * home_position_norm +
      (-0.2) * away_position_norm
  let draw_logit :=
    (-0.1) * home_win_pct + (-0.1) * away_win_pct + (-0.05) * home_goals_scored +
      0.05 * home_goals_conceded + (-0.05) * away_goals_scored +
      0.05 * away_goals_conceded + (-0.1) * home_position_norm +
      (-0.1) * away_position_norm
  let away_win_logit :=
    (-0.2) * home_win_pct + 0.3 * away_win_pct + (-0.1) * home_goals_scored +
      0.15 * home_goals_conceded + 0.15 * away_goals_scored +
      (-0.15) * away_goals_conceded + (-0.2) * home_position_norm +
      0.2 * away_position_norm
  let eh := Real.exp home_win_logit
  let ed := Real.exp draw_logit
  let ea := Real.exp away_win_logit
  let denom := eh + ed + ea
  let home_expected_goals := home_goals_scored * 0.7 + away_goals_conceded * 0.3
  let away_expected_goals := away_goals_scored * 0.7 + home_goals_conceded * 0.3
  let t := home_expected_goals + away_expected_goals
  { home_expected_goals := home_expected_goals
    away_expected_goals := away_expected_goals
    home_win_prob := eh / denom * 100
    draw_prob := ed / denom * 100
    away_win_prob := ea / denom * 100
    over_0_5_prob := (1 - Real.exp (-t)) * 100
    over_1_5_prob := (1 - Real.exp (-t) * (1 + t)) * 100
    over_2_5_prob := (1 - Real.exp (-t) * (1 + t + t ^ 2 / 2)) * 100
    over_3_5_prob := (1 - Real.exp (-t) * (1 + t + t ^ 2 / 2 + t ^ 3 / 6)) * 100
    btts_prob :=
      (1 - Real.exp (-home_expected_goals)) * (1 - Real.exp (-away_expected_goals)) * 100
    features :=
      ⟨home_win_pct, away_win_pct, home_goals_scored, home_goals_conceded,
        away_goals_scored, away_goals_conceded, home_position_norm,
        away_position_norm⟩ }

/-- Embedding of `FootballPredictionModels.logistic_regression_model`. -/
def logistic_regression_model (d : ProcessedData) : Except String LogisticResult :=
  match d.team_form d.home_team, d.team_form d.away_team with
  | some hf, some af =>
      match hf.stats, af.stats with
      | some hs, some aS =>
          .ok (logisticCompute hs aS (d.table_positions d.home_team)
            (d.table_positions d.away_team))
      | _, _ => .error "Estatísticas insuficientes para o modelo de regressão logística"
  | _, _ => .error "Dados insuficientes para o modelo de regressão logística"

/-- Whether a model run succeeded (the Python code tests
`"error" not in results`). -/
def isOkE {ε α : Type _} (r : Except ε α) : Bool :=
  match r with
  | .ok _ => true
  | .error _ => false

/-- The fixed base weight dictionary
`{"poisson": 0.3, "adjusted_poisson": 0.5, "logistic": 0.2}`. -/
def baseWeight (m : String) : ℝ :=
  if m = "poisson" then 0.3
  else if m = "adjusted_poisson" then 0.5
  else if m = "logistic" then 0.2
  else 0

/-- The code's `total_weight = sum(model_weights[model] for model in models_ok)`. -/
def totalWeight (ms : List String) : ℝ := (ms.map baseWeight).sum

/-- The code's `normalized_weights = {model: model_weights[model] / total_weight
for model in models_ok}`, as an ordered association list. -/
def normalizeWeights (ms : List String) : List (String × ℝ) :=
  ms.map fun m => (m, baseWeight m / totalWeight ms)

/-- Result dictionary of `ensemble_model`. -/
structure EnsembleResult where
  home_expected_goals : ℝ
  away_expected_goals : ℝ
  home_win_prob : ℝ
  draw_prob : ℝ
  away_win_prob : ℝ
  over_0_5_prob : ℝ
  over_1_5_prob : ℝ
  over_2_5_prob : ℝ
  over_3_5_prob : ℝ
  btts_prob : ℝ
  top_5_scores : List (String × ℝ)
  models_used : List String
  model_weights : List (String × ℝ)

/-- One weighted contribution, `results[field] * weight` guarded by
`if model in models_ok` (a model is in `models_ok` exactly when its run
succeeded, so the guard is the success match). -/
def exVal (r : Except String ModelResult) (f : ModelResult → ℝ) (w : ℝ) : ℝ :=
  match r with
  | .ok v => f v * w
  | .error _ => 0

/-- As `exVal`, for the logistic model's result type. -/
def exValL (r : Except String LogisticResult) (f : LogisticResult → ℝ) (w : ℝ) : ℝ :=
  match r with
  | .ok v => f v * w
  | .error _ => 0

/-- Embedding of `FootballPredictionModels.ensemble_model`. -/
def ensemble_model (d : ProcessedData) : Except String EnsembleResult :=
  let pr := poisson_model d
  let apr := adjusted_poisson_model d
  let lr := logistic_regression_model d
  let models_ok :=
    (if isOkE pr then ["poisson"] else []) ++
      (if isOkE apr then ["adjusted_poisson"] else []) ++
      (if isOkE lr then ["logistic"] else [])
  match models_ok with
  | [] => .error "Todos os modelos falharam"
  | _ :: _ =>
      let wp := baseWeight "poisson" / totalWeight models_ok
      let wa := baseWeight "adjusted_poisson" / totalWeight models_ok
      let wl := baseWeight "logistic" / totalWeight models_ok
      let heg := exVal pr (·.home_expected_goals) wp +
        exVal apr (·.home_expected_goals) wa + exValL lr (·.home_expected_goals) wl
      let aeg := exVal pr (·.away_expected_goals) wp +
        exVal apr (·.away_expected_goals) wa + exValL lr (·.away_expected_goals) wl
      .ok
        { home_expected_goals := heg
          away_expected_goals := aeg
          home_win_prob := exVal pr (·.home_win_prob) wp +
            exVal apr (·.home_win_prob) wa + exValL lr (·.home_win_prob) wl
          draw_prob := exVal pr (·.draw_prob) wp +
            exVal apr (·.draw_prob) wa + exValL lr (·.draw_prob) wl
          away_win_prob := exVal pr (·.away_win_prob) wp +
            exVal apr (·.away_win_prob) wa + exValL lr (·.away_win_prob) wl
          over_0_5_prob := exVal pr (·.over_0_5_prob) wp +
            exVal apr (·.over_0_5_prob) wa + exValL lr (·.over_0_5_prob) wl
          over_1_5_prob := exVal pr (·.over_1_5_prob) wp +
            exVal apr (·.over_1_5_prob) wa + exValL lr (·.over_1_5_prob) wl
          over_2_5_prob := exVal pr (·.over_2_5_prob) wp +
            exVal apr (·.over_2_5_prob) wa + exValL lr (·.over_2_5_prob) wl
          over_3_5_prob := exVal pr (·.over_3_5_prob) wp +
            exVal apr (·.over_3_5_prob) wa + exValL lr (·.over_3_5_prob) wl
          btts_prob := exVal pr (·.btts_prob) wp +
            exVal apr (·.btts_prob) wa + exValL lr (·.btts_prob) wl
          top_5_scores := ((topScores heg aeg).take 5).map fmtScore
          models_used := models_ok
          model_weights := normalizeWeights models_ok }

/-- The specification's over/under quantity `P(total goals ≤ k)` restricted
to the 10×10 table: the sum of the cells `(i, j)` with `i + j ≤ k`.
This follows the spec's words (for comparison with the code's regions),
not the source. -/
def specUnderSum (lh la : ℝ) (k : ℕ) : ℝ :=
  ∑ i ∈ Finset.range 10, ∑ j ∈ Finset.range 10,
    if i + j ≤ k then scoreMatrix lh la i j else 0

/-- Row-major scan position of a `top_scores` entry. -/
def scanIdx (c : (ℕ × ℕ) × ℝ) : ℕ := 10 * c.1.1 + c.1.2

/-- The ranking the spec prescribes for `top_5_scores`: strictly larger
probability first, ties broken by earlier row-major scan position. -/
def rankOrd (a b : (ℕ × ℕ) × ℝ) : Prop :=
  b.2 < a.2 ∨ (b.2 = a.2 ∧ scanIdx a < scanIdx b)

/-- The team-form precondition that makes the models fail: the entry for
team `t` is missing/empty, or its `stats` sub-dictionary is. -/
def missingStats (d : ProcessedData) (t : String) : Prop :=
  match d.team_form t with
  | none => True
  | some f => f.stats = none

/-- Insufficient data for the fixture: either team's form stats are
missing. -/
def badForm (d : ProcessedData) : Prop :=
  missingStats d d.home_team ∨ missingStats d d.away_team

/-- A two-team `team_form` dictionary for the fixture "H" vs "A". -/
def formFun (hs aS : TeamStats) : String → Option TeamFormData :=
  fun t => if t = "H" then some ⟨some hs⟩ else if t = "A" then some ⟨some aS⟩ else none

/-- Scenario A home stats: scores 2.0 and concedes 1.0 per home game. -/
def statsHomeA : TeamStats := ⟨50, 50, 2, 0, 1, 0⟩

/-- Scenario A away stats: scores 1.0 and concedes 1.0 per away game. -/
def statsAwayA : TeamStats := ⟨50, 50, 0, 1, 0, 1⟩

/-- Scenario A input: no league average, no head-to-head history.
Expected goals come out as `2` (home) and `2/3` (away). -/
def dataA : ProcessedData :=
  { home_team := "H"
    away_team := "A"
    head_to_head := none
    team_form := formFun statsHomeA statsAwayA
    table_positions := fun _ => none
    predictions := none }

/-- Input with expected goals `(0, 1)`: home side scores 0 per home game,
away side's rates make the away mean exactly 1. -/
def dataZeroOne : ProcessedData :=
  { home_team := "H"
    away_team := "A"
    head_to_head := none
    team_form := formFun ⟨0, 0, 0, 0, 1, 0⟩ ⟨0, 0, 0, 1.5, 0, 1⟩
    table_positions := fun _ => none
    predictions := none }

/-- Input with expected goals `(1, 1)`. -/
def dataOneOne : ProcessedData :=
  { home_team := "H"
    away_team := "A"
    head_to_head := none
    team_form := formFun ⟨0, 0, 1, 0, 1, 0⟩ ⟨0, 0, 0, 1.5, 0, 1⟩
    table_positions := fun _ => none
    predictions := none }

/-- Input with expected goals `(20, 0)`: a strong home attack pushes
substantial probability mass beyond the 10×10 truncation. -/
def dataTwenty : ProcessedData :=
  { home_team := "H"
    away_team := "A"
    head_to_head := none
    team_form := formFun ⟨0, 0, 20, 0, 1, 0⟩ ⟨0, 0, 0, 0, 0, 1⟩
    table_positions := fun _ => none
    predictions := none }

/-- Input with no team-form data at all: every model must fail. -/
def dataNoForm : ProcessedData :=
  { home_team := "H"
    away_team := "A"
    head_to_head := none
    team_form := fun _ => none
    table_positions := fun _ => none
    predictions := none }

/-- Scenario A stats plus a two-match head-to-head history, the second
match with the sides swapped. -/
def dataH2H : ProcessedData :=
  { home_team := "H"
    away_team := "A"
    head_to_head := some ⟨[⟨"H", "A", 2, 1⟩, ⟨"A", "H", 3, 1⟩]⟩
    team_form := formFun statsHomeA statsAwayA
    table_positions := fun _ => none
    predictions := none }

end

/-! ### Basic facts about the embedded pieces -/

theorem poissonPmf_zero (j : ℕ) : poissonPmf 0 j = if j = 0 then 1 else 0 := by
  cases j with
  | zero => simp [poissonPmf]
  | succ n => simp [poissonPmf]

theorem poissonPmf_one (j : ℕ) : poissonPmf 1 j = Real.exp (-1) / (Nat.factorial j : ℝ) := by
  simp [poissonPmf]

theorem poissonPmf_pos {lam : ℝ} (h : 0 < lam) (i : ℕ) : 0 < poissonPmf lam i := by
  unfold poissonPmf
  have h1 : (0:ℝ) < Real.exp (-lam) := Real.exp_pos _
  have h2 : (0:ℝ) < lam ^ i := pow_pos h i
  have h3 : (0:ℝ) < (Nat.factorial i : ℝ) := by
    exact_mod_cast Nat.factorial_pos i
  positivity

theorem exceptNotOk {ε α : Type _} (r : Except ε α) (h : ¬ ∃ v, r = .ok v) :
    ∃ e, r = .error e := by
  cases r with
  | error e => exact ⟨e, rfl⟩
  | ok v => exact absurd ⟨v, rfl⟩ h

/-- A successful Poisson run yields exactly a `poissonCompute` record. -/
theorem poisson_model_ok_elim {d : ProcessedData} {r : ModelResult}
    (h : poisson_model d = .ok r) :
    ∃ hf af hs aS, d.team_form d.home_team = some hf ∧ hf.stats = some hs ∧
      d.team_form d.away_team = some af ∧ af.stats = some aS ∧
      r = poissonCompute hs aS d.predictions := by
  unfold poisson_model at h
  cases e1 : d.team_form d.home_team with
  | none => rw [e1] at h; simp at h
  | some hf =>
    cases e2 : d.team_form d.away_team with
    | none => rw [e1, e2] at h; simp at h
    | some af =>
      rw [e1, e2] at h
      dsimp only at h
      cases e3 : hf.stats with
      | none => rw [e3] at h; simp at h
      | some hs =>
        cases e4 : af.stats with
        | none => rw [e3, e4] at h; simp at h
        | some aS =>
          rw [e3, e4] at h
          dsimp only at h
          simp only [Except.ok.injEq] at h
          exact ⟨hf, af, hs, aS, rfl, e3, rfl, e4, h.symm⟩

/-- Every successful Poisson result is a `mkPoissonResult` with no
head-to-head adjustment. -/
theorem poisson_ok_shape {d : ProcessedData} {r : ModelResult}
    (h : poisson_model d = .ok r) : ∃ lh la, r = mkPoissonResult lh la none := by
  obtain ⟨hf, af, hs, aS, _, _, _, _, hr⟩ := poisson_model_ok_elim h
  exact ⟨_, _, hr⟩

/-- Every successful adjusted-Poisson result is a `mkPoissonResult`. -/
theorem adjusted_ok_shape {d : ProcessedData} {r : ModelResult}
    (h : adjusted_poisson_model d = .ok r) : ∃ lh la adj, r = mkPoissonResult lh la adj := by
  unfold adjusted_poisson_model at h
  cases hp : poisson_model d with
  | error e => rw [hp] at h; simp at h
  | ok pr =>
    rw [hp] at h
    dsimp only at h
    obtain ⟨lh, la, hpr⟩ := poisson_ok_shape hp
    cases hh : d.head_to_head with
    | none =>
      rw [hh] at h
      simp only [Except.ok.injEq] at h
      exact ⟨lh, la, none, h ▸ hpr⟩
    | some h2 =>
      rw [hh] at h
      dsimp only at h
      cases hm : h2.last_5_matches with
      | nil =>
        rw [hm] at h
        simp only [Except.ok.injEq] at h
        exact ⟨lh, la, none, h ▸ hpr⟩
      | cons m ms =>
        rw [hm] at h
        simp only [Except.ok.injEq] at h
        exact ⟨_, _, _, h.symm⟩

/-- A successful logistic run yields exactly a `logisticCompute` record. -/
theorem logistic_model_ok_elim {d : ProcessedData} {r : LogisticResult}
    (h : logistic_regression_model d = .ok r) :
    ∃ hf af hs aS, d.team_form d.home_team = some hf ∧ hf.stats = some hs ∧
      d.team_form d.away_team = some af ∧ af.stats = some aS ∧
      r = logisticCompute hs aS (d.table_positions d.home_team)
        (d.table_positions d.away_team) := by
  unfold logistic_regression_model at h
  cases e1 : d.team_form d.home_team with
  | none => rw [e1] at h; simp at h
  | some hf =>
    cases e2 : d.team_form d.away_team with
    | none => rw [e1, e2] at h; simp at h
    | some af =>
      rw [e1, e2] at h
      dsimp only at h
      cases e3 : hf.stats with
      | none => rw [e3] at h; simp at h
      | some hs =>
        cases e4 : af.stats with
        | none => rw [e3, e4] at h; simp at h
        | some aS =>
          rw [e3, e4] at h
          dsimp only at h
          simp only [Except.ok.injEq] at h
          exact ⟨hf, af, hs, aS, rfl, e3, rfl, e4, h.symm⟩


/-- The Poisson model succeeds exactly when both teams' form stats are
present. -/
theorem poisson_model_ok_iff (d : ProcessedData) :
    (∃ v, poisson_model d = .ok v) ↔ ¬ badForm d := by
  unfold poisson_model badForm missingStats
  cases e1 : d.team_form d.home_team with
  | none => simp [e1]
  | some hf =>
    cases e2 : d.team_form d.away_team with
    | none =>
      cases hf.stats <;> simp [e1, e2]
    | some af =>
      cases e3 : hf.stats with
      | none => simp [e1, e2, e3]
      | some hs =>
        cases e4 : af.stats with
        | none => simp [e1, e2, e3, e4]
        | some aS => simp [e1, e2, e3, e4]

/-- The logistic model succeeds exactly when both teams' form stats are
present (the same condition as the Poisson model's). -/
theorem logistic_model_ok_iff (d : ProcessedData) :
    (∃ v, logistic_regression_model d = .ok v) ↔ ¬ badForm d := by
  unfold logistic_regression_model badForm missingStats
  cases e1 : d.team_form d.home_team with
  | none => simp [e1]
  | some hf =>
    cases e2 : d.team_form d.away_team with
    | none =>
      cases hf.stats <;> simp [e1, e2]
    | some af =>
      cases e3 : hf.stats with
      | none => simp [e1, e2, e3]
      | some hs =>
        cases e4 : af.stats with
        | none => simp [e1, e2, e3, e4]
        | some aS => simp [e1, e2, e3, e4]

/-- The adjusted Poisson model succeeds exactly when the base Poisson
model does. -/
theorem adjusted_model_ok_iff (d : ProcessedData) :
    (∃ v, adjusted_poisson_model d = .ok v) ↔ ∃ v, poisson_model d = .ok v := by
  unfold adjusted_poisson_model
  cases hp : poisson_model d with
  | error e => simp
  | ok pr =>
    refine iff_of_true ?_ ⟨pr, rfl⟩
    cases hh : d.head_to_head with
    | none => exact ⟨pr, rfl⟩
    | some h2 =>
      cases hm : h2.last_5_matches with
      | nil => exact ⟨pr, by dsimp only; rw [hm]⟩
      | cons m ms => exact ⟨_, by dsimp only; rw [hm]⟩

/-- Evaluating the Poisson model on Scenario A's input: expected goals
`2` and `2/3`. -/
theorem dataA_poisson : poisson_model dataA = .ok (mkPoissonResult 2 (2/3) none) := by
  have h : poisson_model dataA = .ok (poissonCompute statsHomeA statsAwayA none) := rfl
  rw [h]
  unfold poissonCompute leagueAvgs statsHomeA statsAwayA
  norm_num

/-- Evaluating the Poisson model on the `(0, 1)` expected-goals input. -/
theorem dataZeroOne_poisson :
    poisson_model dataZeroOne = .ok (mkPoissonResult 0 1 none) := by
  have h : poisson_model dataZeroOne =
      .ok (poissonCompute ⟨0, 0, 0, 0, 1, 0⟩ ⟨0, 0, 0, 1.5, 0, 1⟩ none) := rfl
  rw [h]
  unfold poissonCompute leagueAvgs
  norm_num

/-- Evaluating the Poisson model on the `(1, 1)` expected-goals input. -/
theorem dataOneOne_poisson :
    poisson_model dataOneOne = .ok (mkPoissonResult 1 1 none) := by
  have h : poisson_model dataOneOne =
      .ok (poissonCompute ⟨0, 0, 1, 0, 1, 0⟩ ⟨0, 0, 0, 1.5, 0, 1⟩ none) := rfl
  rw [h]
  unfold poissonCompute leagueAvgs
  norm_num

/-- Evaluating the Poisson model on the `(20, 0)` expected-goals input. -/
theorem dataTwenty_poisson :
    poisson_model dataTwenty = .ok (mkPoissonResult 20 0 none) := by
  have h : poisson_model dataTwenty =
      .ok (poissonCompute ⟨0, 0, 20, 0, 1, 0⟩ ⟨0, 0, 0, 0, 0, 1⟩ none) := rfl
  rw [h]
  unfold poissonCompute leagueAvgs
  norm_num

/-! ### C4: graceful degradation of the adjusted Poisson model -/

/-- C4: with no head-to-head history (absent dictionary or empty match
list) the adjusted Poisson model returns the base Poisson result
unchanged — every field equal — and in particular succeeds whenever the
base model succeeds. -/
theorem c4_adjusted_degrades_to_poisson :
    ∀ (d : ProcessedData) (r : ModelResult),
      (d.head_to_head = none ∨ ∃ h, d.head_to_head = some h ∧ h.last_5_matches = []) →
      poisson_model d = .ok r → adjusted_poisson_model d = .ok r := by
  intro d r hh hok
  unfold adjusted_poisson_model
  rw [hok]
  dsimp only
  rcases hh with h | ⟨hd, h2, h3⟩
  · rw [h]
  · rw [h2]
    dsimp only
    rw [h3]

/-- C4 witness: on Scenario A's input (which has no head-to-head data)
the adjusted model returns exactly the base Poisson result. -/
theorem c4_witness :
    ∃ r, poisson_model dataA = .ok r ∧ adjusted_poisson_model dataA = .ok r :=
  ⟨_, dataA_poisson, c4_adjusted_degrades_to_poisson dataA _ (Or.inl rfl) dataA_poisson⟩

/-! ### C9: the top-5 scoreline ranking -/

/-- A stable insert of an element whose scan index is smaller than that of
everything already in the list preserves the spec's ranking order. -/
theorem rankOrd_orderedInsert (a : (ℕ × ℕ) × ℝ) :
    ∀ l : List ((ℕ × ℕ) × ℝ), l.Pairwise rankOrd →
      (∀ b ∈ l, scanIdx a < scanIdx b) →
      (List.orderedInsert probGE a l).Pairwise rankOrd := by
  intro l
  induction l with
  | nil => intro _ _; simp [List.orderedInsert, List.pairwise_singleton]
  | cons b t ih =>
    intro hp ha
    by_cases hab : probGE a b
    · rw [List.orderedInsert, if_pos hab]
      refine List.pairwise_cons.mpr ⟨?_, hp⟩
      intro c hc
      have hc2 : c.2 ≤ a.2 := by
        rcases List.mem_cons.mp hc with rfl | hct
        · exact hab
        · rcases (List.pairwise_cons.mp hp).1 c hct with hlt | ⟨heq, _⟩
          · exact hlt.le.trans hab
          · exact heq.le.trans hab
      rcases lt_or_eq_of_le hc2 with hlt | heq
      · exact Or.inl hlt
      · exact Or.inr ⟨heq, ha c hc⟩
    · rw [List.orderedInsert, if_neg hab]
      have hba : a.2 < b.2 := lt_of_not_le hab
      refine List.pairwise_cons.mpr ⟨?_, ?_⟩
      · intro c hc
        rcases (List.mem_orderedInsert probGE).mp hc with rfl | hct
        · exact Or.inl hba
        · exact (List.pairwise_cons.mp hp).1 c hct
      · exact ih (List.pairwise_cons.mp hp).2
          (fun c hc => ha c (List.mem_cons_of_mem _ hc))

/-- Stable-sorting a list whose scan indices strictly increase yields a
list ordered by the spec's ranking (probability descending, ties by scan
position). -/
theorem insertionSort_pairwise_rankOrd :
    ∀ l : List ((ℕ × ℕ) × ℝ),
      l.Pairwise (fun x y => scanIdx x < scanIdx y) →
      (l.insertionSort probGE).Pairwise rankOrd := by
  intro l
  induction l with
  | nil => intro _; simp [List.insertionSort]
  | cons a t ih =>
    intro hp
    rw [List.insertionSort]
    refine rankOrd_orderedInsert a _ (ih (List.pairwise_cons.mp hp).2) ?_
    intro b hb
    exact (List.pairwise_cons.mp hp).1 b ((List.mem_insertionSort probGE).mp hb)

/-- The row-major `top_scores` list has strictly increasing scan
indices. -/
theorem cells_pairwise_scanIdx (lh la : ℝ) :
    (cells lh la).Pairwise fun x y => scanIdx x < scanIdx y := by
  unfold cells
  rw [List.pairwise_flatMap]
  constructor
  · intro i _
    rw [List.pairwise_map]
    refine (List.pairwise_lt_range 10).imp ?_
    intro j₁ j₂ hj
    simpa [scanIdx] using hj
  · refine (List.pairwise_lt_range 10).imp ?_
    intro i₁ i₂ hi x hx y hy
    obtain ⟨j₁, hj₁, rfl⟩ := List.mem_map.mp hx
    obtain ⟨j₂, hj₂, rfl⟩ := List.mem_map.mp hy
    have h1 : j₁ < 10 := List.mem_range.mp hj₁
    simp only [scanIdx]
    omega

/-- The 10×10 table contributes exactly 100 candidate scorelines. -/
theorem cells_length (lh la : ℝ) : (cells lh la).length = 100 := rfl

/-- C9: `top_5_scores` is the 5-element prefix of the sorted scoreline
list, which is a permutation of the full 10×10 cell list ordered by
probability descending with ties broken by earlier row-major scan
position — so it contains the 5 highest-probability cells under that
reproducible tie-break. -/
theorem c9_top5_ranking :
    ∀ lh la : ℝ,
      (topScores lh la).Perm (cells lh la) ∧
      (topScores lh la).Pairwise rankOrd ∧
      ((topScores lh la).take 5).length = 5 ∧
      ∀ adj : Option (ℝ × ℝ × ℝ), (mkPoissonResult lh la adj).top_5_scores =
        ((topScores lh la).take 5).map fmtScore := by
  intro lh la
  refine ⟨List.perm_insertionSort probGE (cells lh la),
    insertionSort_pairwise_rankOrd _ (cells_pairwise_scanIdx lh la), ?_, ?_⟩
  · rw [List.length_take, topScores, List.length_insertionSort, cells_length]
    rfl
  · intro adj
    simp only [mkPoissonResult]

/-! ### C2: probability closure -/

/-- Below-diagonal, diagonal and above-diagonal masses add up to the whole
truncated table's mass, which factorises as a product of the two
truncated marginals. -/
theorem winDrawAway_eq_mass (lh la : ℝ) :
    homeWinSum lh la + drawSum lh la + awayWinSum lh la =
      (∑ i ∈ Finset.range 10, poissonPmf lh i) *
        (∑ j ∈ Finset.range 10, poissonPmf la j) := by
  have hd : drawSum lh la = ∑ i ∈ Finset.range 10, ∑ j ∈ Finset.range 10,
      if j = i then scoreMatrix lh la i j else 0 := by
    unfold drawSum
    refine Finset.sum_congr rfl fun i hi => ?_
    rw [Finset.sum_ite_eq' (Finset.range 10) i (scoreMatrix lh la i)]
    simp [Finset.mem_range.mp hi]
  rw [Finset.sum_mul_sum]
  unfold homeWinSum awayWinSum
  rw [hd, ← Finset.sum_add_distrib, ← Finset.sum_add_distrib]
  refine Finset.sum_congr rfl fun i _ => ?_
  rw [← Finset.sum_add_distrib, ← Finset.sum_add_distrib]
  refine Finset.sum_congr rfl fun j _ => ?_
  rcases lt_trichotomy j i with hc | hc | hc
  · simp [hc, hc.ne, not_lt_of_gt hc, scoreMatrix]
  · simp [hc, lt_irrefl, scoreMatrix]
  · simp [hc, hc.ne', not_lt_of_gt hc, scoreMatrix]

/-- The win/draw/loss probabilities of a Poisson-style result sum to 100
times the truncated table mass. -/
theorem mkPoissonResult_closure (lh la : ℝ) (adj : Option (ℝ × ℝ × ℝ)) :
    (mkPoissonResult lh la adj).home_win_prob + (mkPoissonResult lh la adj).draw_prob +
        (mkPoissonResult lh la adj).away_win_prob =
      100 * ((∑ i ∈ Finset.range 10, poissonPmf lh i) *
        (∑ j ∈ Finset.range 10, poissonPmf la j)) := by
  simp only [mkPoissonResult]
  rw [← winDrawAway_eq_mass]
  ring

/-- The logistic model's softmax probabilities sum to exactly 100. -/
theorem logisticCompute_closure (hs aS : TeamStats) (hpd apd : Option TablePosData) :
    (logisticCompute hs aS hpd apd).home_win_prob +
        (logisticCompute hs aS hpd apd).draw_prob +
        (logisticCompute hs aS hpd apd).away_win_prob = 100 := by
  have key : ∀ a b c : ℝ, 0 < a → 0 < b → 0 < c →
      a / (a + b + c) * 100 + b / (a + b + c) * 100 + c / (a + b + c) * 100 = 100 := by
    intro a b c ha hb hc
    have habc : a + b + c ≠ 0 := by positivity
    field_simp
    ring
  simp only [logisticCompute]
  exact key _ _ _ (Real.exp_pos _) (Real.exp_pos _) (Real.exp_pos _)

/-- C2 (amended): the logistic model's closure holds exactly, while for
the Poisson and adjusted-Poisson models `home + draw + away` equals 100
times the probability mass retained by the truncated 10×10 table — a
value at most 100 that is within 1e-6 of 100 only when the truncated
tails are negligible. -/
theorem c2_closure_truncated_mass :
    (∀ (d : ProcessedData) (r : ModelResult), poisson_model d = .ok r →
        r.home_win_prob + r.draw_prob + r.away_win_prob =
          100 * ((∑ i ∈ Finset.range 10, poissonPmf r.home_expected_goals i) *
            (∑ j ∈ Finset.range 10, poissonPmf r.away_expected_goals j))) ∧
    (∀ (d : ProcessedData) (r : ModelResult), adjusted_poisson_model d = .ok r →
        r.home_win_prob + r.draw_prob + r.away_win_prob =
          100 * ((∑ i ∈ Finset.range 10, poissonPmf r.home_expected_goals i) *
            (∑ j ∈ Finset.range 10, poissonPmf r.away_expected_goals j))) ∧
    (∀ (d : ProcessedData) (r : LogisticResult), logistic_regression_model d = .ok r →
        r.home_win_prob + r.draw_prob + r.away_win_prob = 100) := by
  refine ⟨?_, ?_, ?_⟩
  · intro d r h
    obtain ⟨lh, la, rfl⟩ := poisson_ok_shape h
    exact mkPoissonResult_closure lh la none
  · intro d r h
    obtain ⟨lh, la, adj, rfl⟩ := adjusted_ok_shape h
    exact mkPoissonResult_closure lh la adj
  · intro d r h
    obtain ⟨hf, af, hs, aS, _, _, _, _, rfl⟩ := logistic_model_ok_elim h
    exact logisticCompute_closure hs aS _ _

/-- C2 witness: the truncated-mass closure identity instantiated on
Scenario A's input. -/
theorem c2_closure_witness :
    ∃ r, poisson_model dataA = .ok r ∧
      r.home_win_prob + r.draw_prob + r.away_win_prob =
        100 * ((∑ i ∈ Finset.range 10, poissonPmf r.home_expected_goals i) *
          (∑ j ∈ Finset.range 10, poissonPmf r.away_expected_goals j)) :=
  ⟨_, dataA_poisson, c2_closure_truncated_mass.1 dataA _ dataA_poisson⟩

/-- C2 counterexample: with home expected goals 20 the Poisson model's
win/draw/loss probabilities sum to far less than 100 — the claim's
1e-6 closure bound fails. -/
theorem c2_closure_counterexample :
    ∃ r, poisson_model dataTwenty = .ok r ∧
      r.home_win_prob + r.draw_prob + r.away_win_prob < 100 - 1 / 1000000 := by
  refine ⟨_, dataTwenty_poisson, ?_⟩
  rw [mkPoissonResult_closure 20 0 none]
  have h0 : (∑ j ∈ Finset.range 10, poissonPmf 0 j) = 1 := by
    simp [poissonPmf_zero, Finset.sum_range_succ]
  rw [h0, mul_one]
  have hmass : (∑ i ∈ Finset.range 10, poissonPmf 20 i) < 1 - 1/100000000 := by
    have hexp : (2.7182818283 : ℝ) ^ (20 : ℕ) < Real.exp 20 := by
      have h2 : Real.exp (((20 : ℕ) : ℝ) * (1 : ℝ)) = Real.exp 1 ^ (20 : ℕ) :=
        Real.exp_nat_mul 1 20
      have h3 : ((20 : ℕ) : ℝ) * (1 : ℝ) = (20 : ℝ) := by norm_num
      rw [h3] at h2
      rw [h2]
      exact pow_lt_pow_left₀ Real.exp_one_gt_d9 (by norm_num) (by norm_num)
    have hpos : (0 : ℝ) < Real.exp 20 := Real.exp_pos 20
    have hsum : (∑ i ∈ Finset.range 10, poissonPmf 20 i) * Real.exp 20 =
        ∑ i ∈ Finset.range 10, (20 : ℝ) ^ i / (Nat.factorial i : ℝ) := by
      rw [Finset.sum_mul]
      refine Finset.sum_congr rfl fun i _ => ?_
      unfold poissonPmf
      rw [Real.exp_neg]
      field_simp
      ring
    have hQ : (∑ i ∈ Finset.range 10, (20 : ℝ) ^ i / (Nat.factorial i : ℝ)) ≤
        (1 - 1/100000000) * (2.7182818283 : ℝ) ^ (20 : ℕ) := by
      simp [Finset.sum_range_succ, Nat.factorial]
      norm_num
    nlinarith [hsum, hQ, hexp, hpos]
  linarith

/-! ### C1: the over/under threshold formulas -/

/-- C1: the code's `over_0_5_prob` and `over_1_5_prob` do equal
`1 − P(total ≤ k)` on the 10×10 table, but its `over_2_5_prob` and
`over_3_5_prob` region sums do not: on the expected-goals-(0, 1) input
both come out strictly below the spec's value (the code's regions
miscount the cells with `i + j ≤ k`). -/
theorem c1_over_under_regions :
    (∀ lh la : ℝ, over05v lh la = 1 - specUnderSum lh la 0) ∧
    (∀ lh la : ℝ, over15v lh la = 1 - specUnderSum lh la 1) ∧
    (∃ r, poisson_model dataZeroOne = .ok r ∧
        r.over_2_5_prob < 100 * (1 - specUnderSum 0 1 2) ∧
        r.over_3_5_prob < 100 * (1 - specUnderSum 0 1 3)) := by
  refine ⟨?_, ?_, ?_⟩
  · intro lh la
    unfold over05v specUnderSum
    simp [Finset.sum_range_succ]
  · intro lh la
    unfold over15v specUnderSum
    simp [Finset.sum_range_succ]
    ring
  · refine ⟨_, dataZeroOne_poisson, ?_, ?_⟩
    · show over25v 0 1 * 100 < 100 * (1 - specUnderSum 0 1 2)
      have hE : (0:ℝ) < Real.exp (-1) := Real.exp_pos _
      unfold over25v specUnderSum scoreMatrix
      simp [poissonPmf_zero, poissonPmf_one, Finset.sum_Ico_eq_sum_range,
        Finset.sum_range_succ, Nat.factorial]
      nlinarith [hE]
    · show over35v 0 1 * 100 < 100 * (1 - specUnderSum 0 1 3)
      have hE : (0:ℝ) < Real.exp (-1) := Real.exp_pos _
      unfold over35v specUnderSum scoreMatrix
      simp [poissonPmf_zero, poissonPmf_one, Finset.sum_Ico_eq_sum_range,
        Finset.sum_range_succ, Nat.factorial]
      nlinarith [hE]

/-! ### C3: monotonicity of the over/under probabilities -/

/-- C3: the over/under probabilities are not monotone — with both
expected goals equal to 1 the Poisson model's `over_2_5_prob` is
strictly smaller than its `over_3_5_prob`, because the miscounted
`over_2_5`/`over_3_5` regions subtract different spurious cells. -/
theorem c3_monotonicity_violated :
    ∃ r, poisson_model dataOneOne = .ok r ∧ r.over_2_5_prob < r.over_3_5_prob := by
  refine ⟨_, dataOneOne_poisson, ?_⟩
  show over25v 1 1 * 100 < over35v 1 1 * 100
  have hE : (0:ℝ) < Real.exp (-1) := Real.exp_pos _
  unfold over25v over35v scoreMatrix
  simp [poissonPmf_one, Finset.sum_Ico_eq_sum_range, Finset.sum_range_succ, Nat.factorial]
  nlinarith [hE, mul_pos hE hE]

/-! ### C6: league-average defaults and Scenario A -/

/-- For `j < i` and `0 < la < lh`, the matrix cell `(i, j)` strictly
dominates its mirror cell `(j, i)`. -/
theorem pmf_cross {lh la : ℝ} (h0 : 0 < la) (hlt : la < lh) {i j : ℕ} (hij : j < i) :
    poissonPmf lh j * poissonPmf la i < poissonPmf lh i * poissonPmf la j := by
  have hlh : 0 < lh := h0.trans hlt
  have key : lh ^ j * la ^ i < lh ^ i * la ^ j := by
    have hpow : la ^ (i - j) < lh ^ (i - j) :=
      pow_lt_pow_left₀ hlt h0.le (Nat.sub_ne_zero_of_lt hij)
    have hla : la ^ i = la ^ j * la ^ (i - j) := by
      rw [← pow_add]; congr 1; omega
    have hlh2 : lh ^ i = lh ^ j * lh ^ (i - j) := by
      rw [← pow_add]; congr 1; omega
    calc lh ^ j * la ^ i = (lh ^ j * la ^ j) * la ^ (i - j) := by rw [hla]; ring
      _ < (lh ^ j * la ^ j) * lh ^ (i - j) := by
          refine mul_lt_mul_of_pos_left hpow ?_
          positivity
      _ = lh ^ i * la ^ j := by rw [hlh2]; ring
  have hE : (0:ℝ) < Real.exp (-lh) * Real.exp (-la) := by positivity
  have l1 : poissonPmf lh j * poissonPmf la i =
      Real.exp (-lh) * Real.exp (-la) * (lh ^ j * la ^ i) /
        ((Nat.factorial j : ℝ) * (Nat.factorial i : ℝ)) := by
    unfold poissonPmf; ring
  have l2 : poissonPmf lh i * poissonPmf la j =
      Real.exp (-lh) * Real.exp (-la) * (lh ^ i * la ^ j) /
        ((Nat.factorial j : ℝ) * (Nat.factorial i : ℝ)) := by
    unfold poissonPmf; ring
  have hfi : (0:ℝ) < (Nat.factorial i : ℝ) := by exact_mod_cast Nat.factorial_pos i
  have hfj : (0:ℝ) < (Nat.factorial j : ℝ) := by exact_mod_cast Nat.factorial_pos j
  rw [l1, l2, div_lt_div_iff_of_pos_right (by positivity)]
  exact mul_lt_mul_of_pos_left key hE

/-- With a strictly larger home mean the below-diagonal mass strictly
exceeds the above-diagonal mass. -/
theorem awayWin_lt_homeWin {lh la : ℝ} (h0 : 0 < la) (hlt : la < lh) :
    awayWinSum lh la < homeWinSum lh la := by
  unfold homeWinSum awayWinSum
  rw [← Finset.sum_product', ← Finset.sum_product']
  rw [← Finset.sum_filter, ← Finset.sum_filter]
  have hswap : ∑ x ∈ Finset.filter (fun x : ℕ × ℕ => x.1 < x.2)
        (Finset.range 10 ×ˢ Finset.range 10), scoreMatrix lh la x.1 x.2 =
      ∑ x ∈ Finset.filter (fun x : ℕ × ℕ => x.2 < x.1)
        (Finset.range 10 ×ˢ Finset.range 10), scoreMatrix lh la x.2 x.1 := by
    refine Finset.sum_nbij' Prod.swap Prod.swap ?_ ?_ ?_ ?_ ?_
    · intro a ha
      rw [Finset.mem_filter] at ha ⊢
      simp only [Finset.mem_product] at ha ⊢
      exact ⟨⟨ha.1.2, ha.1.1⟩, ha.2⟩
    · intro a ha
      rw [Finset.mem_filter] at ha ⊢
      simp only [Finset.mem_product] at ha ⊢
      exact ⟨⟨ha.1.2, ha.1.1⟩, ha.2⟩
    · intro a _; rfl
    · intro a _; rfl
    · intro a _; rfl
  rw [hswap]
  refine Finset.sum_lt_sum_of_nonempty ?_ ?_
  · exact ⟨(1, 0), by simp⟩
  · intro x hx
    rw [Finset.mem_filter] at hx
    exact pmf_cross h0 hlt hx.2

/-- C6: when the league-average statistic is missing or zero the Poisson
model succeeds using the default denominators 1.5 and 1.2, computing
`home_expected = home_attack × away_defense / 1.2 × 1.2` and
`away_expected = away_attack × home_defense / 1.5`; on Scenario A's
input this gives expected goals `2` and `2/3` (0.667) and a strictly
larger home-win probability. -/
theorem c6_default_league_and_scenarioA :
    (∀ (d : ProcessedData) (hf af : TeamFormData) (hs aS : TeamStats),
        d.team_form d.home_team = some hf → hf.stats = some hs →
        d.team_form d.away_team = some af → af.stats = some aS →
        (d.predictions = none ∨ d.predictions = some ⟨0⟩) →
        poisson_model d = .ok (poissonCompute hs aS d.predictions) ∧
        (poissonCompute hs aS d.predictions).home_expected_goals =
          hs.goals_scored_per_game_home * aS.goals_conceded_per_game_away / 1.2 * 1.2 ∧
        (poissonCompute hs aS d.predictions).away_expected_goals =
          aS.goals_scored_per_game_away * hs.goals_conceded_per_game_home / 1.5) ∧
    (∃ r, poisson_model dataA = .ok r ∧ r.home_expected_goals = 2 ∧
        r.away_expected_goals = 2 / 3 ∧ r.away_win_prob < r.home_win_prob) := by
  constructor
  · intro d hf af hs aS h1 h2 h3 h4 hpred
    refine ⟨?_, ?_, ?_⟩
    · unfold poisson_model
      rw [h1, h3]
      dsimp only
      rw [h2, h4]
    · rcases hpred with h | h <;> rw [h] <;>
        simp [poissonCompute, leagueAvgs, mkPoissonResult]
    · rcases hpred with h | h <;> rw [h] <;>
        simp [poissonCompute, leagueAvgs, mkPoissonResult]
  · refine ⟨_, dataA_poisson, rfl, rfl, ?_⟩
    show awayWinSum 2 (2/3) * 100 < homeWinSum 2 (2/3) * 100
    have h := @awayWin_lt_homeWin 2 (2/3) (by norm_num) (by norm_num)
    linarith

/-- C6 witness: the default-league-average branch instantiated on
Scenario A's concrete input. -/
theorem c6_witness :
    poisson_model dataA = .ok (poissonCompute statsHomeA statsAwayA dataA.predictions) ∧
    (poissonCompute statsHomeA statsAwayA dataA.predictions).home_expected_goals =
      statsHomeA.goals_scored_per_game_home *
        statsAwayA.goals_conceded_per_game_away / 1.2 * 1.2 ∧
    (poissonCompute statsHomeA statsAwayA dataA.predictions).away_expected_goals =
      statsAwayA.goals_scored_per_game_away *
        statsHomeA.goals_conceded_per_game_home / 1.5 :=
  c6_default_league_and_scenarioA.1 dataA ⟨some statsHomeA⟩ ⟨some statsAwayA⟩
    statsHomeA statsAwayA rfl rfl rfl rfl (Or.inl rfl)

/-! ### C8: the head-to-head 50/50 blend -/

/-- Evaluating the Poisson model on the head-to-head input (the form
stats are Scenario A's). -/
theorem dataH2H_poisson : poisson_model dataH2H = .ok (mkPoissonResult 2 (2/3) none) := by
  have h : poisson_model dataH2H = .ok (poissonCompute statsHomeA statsAwayA none) := rfl
  rw [h]
  unfold poissonCompute leagueAvgs statsHomeA statsAwayA
  norm_num

/-- C8: with a non-empty head-to-head list the adjusted model's expected
goals are `0.5 × baseline + 0.5 × mean` of the goals credited to each
fixture side, sides reassigned by comparing each historical home-team
name with this fixture's home-team name (scores swap when they differ). -/
theorem c8_h2h_blend :
    ∀ (d : ProcessedData) (hh : H2HData) (m : H2HMatch) (ms : List H2HMatch)
      (pr r : ModelResult),
      d.head_to_head = some hh → hh.last_5_matches = m :: ms →
      poisson_model d = .ok pr → adjusted_poisson_model d = .ok r →
      r.home_expected_goals = 0.5 * pr.home_expected_goals +
        0.5 * (((m :: ms).map fun mt =>
          if mt.home_team = d.home_team then mt.home_score else mt.away_score).sum /
            ((m :: ms).length : ℝ)) ∧
      r.away_expected_goals = 0.5 * pr.away_expected_goals +
        0.5 * (((m :: ms).map fun mt =>
          if mt.home_team = d.home_team then mt.away_score else mt.home_score).sum /
            ((m :: ms).length : ℝ)) := by
  intro d hh m ms pr r h1 h2 hok hadj
  unfold adjusted_poisson_model at hadj
  rw [hok] at hadj
  dsimp only at hadj
  rw [h1] at hadj
  dsimp only at hadj
  rw [h2] at hadj
  simp only [Except.ok.injEq] at hadj
  subst hadj
  have hmean : ∀ l : List ℝ, l ≠ [] → meanListR l = l.sum / (l.length : ℝ) := by
    intro l hl
    cases l with
    | nil => exact absurd rfl hl
    | cons x t => rfl
  constructor
  · have e1 : (adjustedCompute d pr (m :: ms)).home_expected_goals =
        (1.0 - 0.5) * pr.home_expected_goals +
          0.5 * meanListR (h2hHomeGoals d (m :: ms)) := rfl
    rw [e1, hmean _ (by simp [h2hHomeGoals])]
    unfold h2hHomeGoals
    rw [List.length_map]
    norm_num
  · have e1 : (adjustedCompute d pr (m :: ms)).away_expected_goals =
        (1.0 - 0.5) * pr.away_expected_goals +
          0.5 * meanListR (h2hAwayGoals d (m :: ms)) := rfl
    rw [e1, hmean _ (by simp [h2hAwayGoals])]
    unfold h2hAwayGoals
    rw [List.length_map]
    norm_num

/-- C8 witness: on the concrete two-match history (one meeting with the
sides swapped) the blend yields `0.5·2 + 0.5·(2+1)/2 = 7/4` and
`0.5·(2/3) + 0.5·(1+3)/2 = 4/3`. -/
theorem c8_witness :
    ∃ r, adjusted_poisson_model dataH2H = .ok r ∧
      r.home_expected_goals = 7 / 4 ∧ r.away_expected_goals = 4 / 3 := by
  have hadj : adjusted_poisson_model dataH2H =
      .ok (adjustedCompute dataH2H (mkPoissonResult 2 (2/3) none)
        [⟨"H", "A", 2, 1⟩, ⟨"A", "H", 3, 1⟩]) := by
    unfold adjusted_poisson_model
    rw [dataH2H_poisson]
    rfl
  obtain ⟨e1, e2⟩ := c8_h2h_blend dataH2H ⟨[⟨"H", "A", 2, 1⟩, ⟨"A", "H", 3, 1⟩]⟩
    ⟨"H", "A", 2, 1⟩ [⟨"A", "H", 3, 1⟩] _ _ rfl rfl dataH2H_poisson hadj
  refine ⟨_, hadj, ?_, ?_⟩
  · rw [e1]
    norm_num [dataH2H, mkPoissonResult,
      show (("A" : String) = "H") = False by simp,
      show (("H" : String) = "H") = True by simp]
  · rw [e2]
    norm_num [dataH2H, mkPoissonResult,
      show (("A" : String) = "H") = False by simp,
      show (("H" : String) = "H") = True by simp]

/-! ### C5, C7, C10: ensemble weighting and failure propagation -/

theorem baseWeight_poisson : baseWeight "poisson" = 0.3 := rfl

theorem baseWeight_adjusted : baseWeight "adjusted_poisson" = 0.5 := rfl

theorem baseWeight_logistic : baseWeight "logistic" = 0.2 := rfl

/-- A successful ensemble reports exactly the successful models, in the
fixed poisson/adjusted/logistic order, with their renormalised weights. -/
theorem ensemble_ok_elim {d : ProcessedData} {r : EnsembleResult}
    (h : ensemble_model d = .ok r) :
    r.models_used = (if isOkE (poisson_model d) then ["poisson"] else []) ++
        (if isOkE (adjusted_poisson_model d) then ["adjusted_poisson"] else []) ++
        (if isOkE (logistic_regression_model d) then ["logistic"] else []) ∧
    r.model_weights = normalizeWeights r.models_used ∧
    r.models_used ≠ [] := by
  simp only [ensemble_model] at h
  split at h
  · simp at h
  · rename_i ms heq
    simp only [Except.ok.injEq] at h
    subst h
    refine ⟨rfl, rfl, ?_⟩
    intro hc
    rw [heq] at hc
    exact List.cons_ne_nil _ _ hc

/-- Every member of the `models_ok` list has a positive base weight. -/
theorem mem_models_expr {b1 b2 b3 : Bool} {m : String}
    (hm : m ∈ (if b1 then ["poisson"] else []) ++
      (if b2 then ["adjusted_poisson"] else []) ++ (if b3 then ["logistic"] else [])) :
    0 < baseWeight m := by
  have key : ∀ x : String, x = "poisson" ∨ x = "adjusted_poisson" ∨ x = "logistic" →
      0 < baseWeight x := by
    rintro x (rfl | rfl | rfl)
    · rw [baseWeight_poisson]; norm_num
    · rw [baseWeight_adjusted]; norm_num
    · rw [baseWeight_logistic]; norm_num
  cases b1 <;> cases b2 <;> cases b3 <;> simp at hm <;> exact key m (by tauto)

/-- A non-empty model list with positive member weights has positive
total weight. -/
theorem totalWeight_pos {ms : List String} (hne : ms ≠ [])
    (hmem : ∀ m ∈ ms, 0 < baseWeight m) : 0 < totalWeight ms := by
  cases ms with
  | nil => exact absurd rfl hne
  | cons a t =>
    unfold totalWeight
    simp only [List.map_cons, List.sum_cons]
    have h1 : 0 < baseWeight a := hmem a (List.mem_cons_self a t)
    have h2 : 0 ≤ (t.map baseWeight).sum := by
      apply List.sum_nonneg
      intro x hx
      obtain ⟨m, hm, rfl⟩ := List.mem_map.mp hx
      exact (hmem m (List.mem_cons_of_mem a hm)).le
    linarith

/-- Renormalised weights sum to exactly 1 whenever the total is
non-zero. -/
theorem normalizeWeights_sum {ms : List String} (h : totalWeight ms ≠ 0) :
    ((normalizeWeights ms).map Prod.snd).sum = 1 := by
  unfold normalizeWeights
  rw [List.map_map]
  have hfun : (Prod.snd ∘ fun m => (m, baseWeight m / totalWeight ms)) =
      fun m => baseWeight m * (totalWeight ms)⁻¹ := by
    funext m
    simp [div_eq_mul_inv]
  rw [hfun, List.sum_map_mul_right]
  exact mul_inv_cancel₀ h

/-- When either team's form stats are missing, all three base models
return failure values and the ensemble reports total failure. -/
theorem badForm_all_fail {d : ProcessedData} (h : badForm d) :
    (∃ e, poisson_model d = .error e) ∧
    (∃ e, logistic_regression_model d = .error e) ∧
    (∃ e, adjusted_poisson_model d = .error e) ∧
    ensemble_model d = .error "Todos os modelos falharam" := by
  have hnp : ¬ ∃ v, poisson_model d = .ok v := fun hv => (poisson_model_ok_iff d).mp hv h
  have hnl : ¬ ∃ v, logistic_regression_model d = .ok v :=
    fun hv => (logistic_model_ok_iff d).mp hv h
  have hna : ¬ ∃ v, adjusted_poisson_model d = .ok v :=
    fun hv => hnp ((adjusted_model_ok_iff d).mp hv)
  obtain ⟨e1, hp⟩ := exceptNotOk _ hnp
  obtain ⟨e2, hl⟩ := exceptNotOk _ hnl
  obtain ⟨e3, ha⟩ := exceptNotOk _ hna
  refine ⟨⟨e1, hp⟩, ⟨e2, hl⟩, ⟨e3, ha⟩, ?_⟩
  simp [ensemble_model, hp, hl, ha, isOkE]

/-- C5: a successful ensemble's `model_weights` is the fixed base-weight
map restricted to `models_used` and renormalised to sum to exactly 1;
restricting the base weights to `{poisson, logistic}` renormalises to
`{0.6, 0.4}`. -/
theorem c5_ensemble_weights :
    (∀ (d : ProcessedData) (r : EnsembleResult), ensemble_model d = .ok r →
        r.model_weights = normalizeWeights r.models_used ∧
        (r.model_weights.map Prod.snd).sum = 1) ∧
    normalizeWeights ["poisson", "logistic"] = [("poisson", 0.6), ("logistic", 0.4)] := by
  constructor
  · intro d r h
    obtain ⟨hused, hw, hne⟩ := ensemble_ok_elim h
    refine ⟨hw, ?_⟩
    rw [hw]
    apply normalizeWeights_sum
    refine (totalWeight_pos hne ?_).ne'
    intro m hm
    rw [hused] at hm
    exact mem_models_expr hm
  · unfold normalizeWeights totalWeight
    simp only [List.map_cons, List.map_nil, List.sum_cons, List.sum_nil,
      baseWeight_poisson, baseWeight_logistic]
    norm_num

/-- C5 witness: on Scenario A's input the ensemble succeeds and its
weights are the renormalised restriction summing to 1. -/
theorem c5_witness :
    ∃ r, ensemble_model dataA = .ok r ∧
      r.model_weights = normalizeWeights r.models_used ∧
      (r.model_weights.map Prod.snd).sum = 1 := by
  obtain ⟨r, hr⟩ : ∃ r, ensemble_model dataA = .ok r := ⟨_, rfl⟩
  exact ⟨r, hr, c5_ensemble_weights.1 dataA r hr⟩

/-- C7: missing team-form statistics make each base model return a typed
failure value (never a result), the ensemble's `models_used` contains a
model exactly when that model succeeded, and when all models fail the
ensemble returns the top-level failure value. -/
theorem c7_insufficient_data :
    (∀ d : ProcessedData, badForm d →
        (∃ e, poisson_model d = .error e) ∧
        (∃ e, logistic_regression_model d = .error e) ∧
        (∃ e, adjusted_poisson_model d = .error e) ∧
        ensemble_model d = .error "Todos os modelos falharam") ∧
    (∀ (d : ProcessedData) (r : EnsembleResult), ensemble_model d = .ok r →
        (("poisson" ∈ r.models_used) ↔ ∃ v, poisson_model d = .ok v) ∧
        (("adjusted_poisson" ∈ r.models_used) ↔ ∃ v, adjusted_poisson_model d = .ok v) ∧
        (("logistic" ∈ r.models_used) ↔ ∃ v, logistic_regression_model d = .ok v)) := by
  constructor
  · exact fun d h => badForm_all_fail h
  · intro d r h
    obtain ⟨hused, _, _⟩ := ensemble_ok_elim h
    rw [hused]
    cases hp : poisson_model d <;> cases ha : adjusted_poisson_model d <;>
      cases hl : logistic_regression_model d <;>
      simp [isOkE]

/-- C7 witness: with no team-form data at all, the Poisson model fails
with a typed error and the ensemble reports total failure. -/
theorem c7_witness :
    (∃ e, poisson_model dataNoForm = .error e) ∧
    ensemble_model dataNoForm = .error "Todos os modelos falharam" := by
  have hb : badForm dataNoForm := Or.inl trivial
  exact ⟨(c7_insufficient_data.1 dataNoForm hb).1,
    (c7_insufficient_data.1 dataNoForm hb).2.2.2⟩

/-- C10: the three base models succeed or fail together — Poisson and
logistic fail under exactly the same missing-form condition, the adjusted
model fails exactly when the base Poisson does — so a successful ensemble
always uses all three models with the unnormalised base weights
`{0.3, 0.5, 0.2}`, and otherwise the ensemble reports total failure. -/
theorem c10_models_rise_and_fall_together :
    ∀ d : ProcessedData,
      ((∃ v, poisson_model d = .ok v) ↔ ¬ badForm d) ∧
      ((∃ v, logistic_regression_model d = .ok v) ↔ ∃ v, poisson_model d = .ok v) ∧
      ((∃ v, adjusted_poisson_model d = .ok v) ↔ ∃ v, poisson_model d = .ok v) ∧
      (∀ r : EnsembleResult, ensemble_model d = .ok r →
        r.models_used = ["poisson", "adjusted_poisson", "logistic"] ∧
        r.model_weights = [("poisson", 0.3), ("adjusted_poisson", 0.5), ("logistic", 0.2)]) ∧
      (badForm d → ensemble_model d = .error "Todos os modelos falharam") := by
  intro d
  refine ⟨poisson_model_ok_iff d,
    (logistic_model_ok_iff d).trans (poisson_model_ok_iff d).symm,
    adjusted_model_ok_iff d, ?_, fun h => (badForm_all_fail h).2.2.2⟩
  intro r h
  obtain ⟨hused, hw, hne⟩ := ensemble_ok_elim h
  by_cases hbad : badForm d
  · have herr := (badForm_all_fail hbad).2.2.2
    rw [herr] at h
    simp at h
  · obtain ⟨vp, hp⟩ := (poisson_model_ok_iff d).mpr hbad
    obtain ⟨vl, hl⟩ := (logistic_model_ok_iff d).mpr hbad
    obtain ⟨va, ha⟩ := (adjusted_model_ok_iff d).mpr ((poisson_model_ok_iff d).mpr hbad)
    rw [hp, ha, hl] at hused
    simp only [isOkE, if_true] at hused
    have hused' : r.models_used = ["poisson", "adjusted_poisson", "logistic"] := by
      rw [hused]; rfl
    refine ⟨hused', ?_⟩
    rw [hw, hused']
    unfold normalizeWeights totalWeight
    simp only [List.map_cons, List.map_nil, List.sum_cons, List.sum_nil,
      baseWeight_poisson, baseWeight_adjusted, baseWeight_logistic]
    norm_num

/-- C10 witness: on Scenario A's input the ensemble uses all three models
with the unnormalised base weights. -/
theorem c10_witness :
    ∃ r, ensemble_model dataA = .ok r ∧
      r.models_used = ["poisson", "adjusted_poisson", "logistic"] ∧
      r.model_weights = [("poisson", 0.3), ("adjusted_poisson", 0.5), ("logistic", 0.2)] := by
  obtain ⟨r, hr⟩ : ∃ r, ensemble_model dataA = .ok r := ⟨_, rfl⟩
  exact ⟨r, hr, (c10_models_rise_and_fall_together dataA).2.2.2.1 r hr⟩
